import Mathlib

/-!
Verification development for the espanso-gui repository (Rust, iced GUI).

The Rust source is shallowly embedded: the data model (`YamlPairs`,
`EspansoYaml`, the config structs) is translated from
`src/espanso_yaml.rs` and `src/parse_config/yaml_config.rs`; the
`update` handlers of `src/app.rs` become pure functions from an
application state (plus an explicit disk) to a new state and disk.
File contents on disk are modelled at the level of their parsed YAML
documents; operations of the Rust code that panic via
`unwrap`/`expect` are modelled by `Option`, `none` standing for a
process abort.
-/

namespace EspansoGui

/-- One trigger/replace pair, from `YamlPairs` in `src/espanso_yaml.rs`. -/
structure YamlPairs where
  trigger : String
  replace : String
deriving DecidableEq, Repr

/-- `YamlPairs::default()`: both fields empty. -/
def YamlPairs.default : YamlPairs := ⟨"", ""⟩

/-- A parsed match file, from `EspansoYaml` in `src/espanso_yaml.rs`:
a top-level `matches` key holding a sequence of pairs. -/
structure EspansoYaml where
  «matches» : List YamlPairs
deriving DecidableEq, Repr

/-- `EspansoYaml::default()`: an empty `matches` sequence. -/
def EspansoYaml.default : EspansoYaml := ⟨[]⟩

/-- The filter used by `read_to_triggers` in `src/app.rs`:
`!pair.trigger.is_empty() && !pair.replace.is_empty()`. -/
def keepPair (pair : YamlPairs) : Bool :=
  !pair.trigger.isEmpty && !pair.replace.isEmpty

/-- A YAML scalar/collection value as the config parser distinguishes
them: strings, booleans, integers, sequences, and mappings. -/
inductive YamlVal : Type where
  | str (s : String)
  | boolVal (b : Bool)
  | intVal (n : Int)
  | list (l : List YamlVal)
  | mapping (m : List (YamlVal × YamlVal))

/-- A parsed YAML mapping document (the shape of a config file). -/
abbrev YamlDoc : Type := List (String × YamlVal)

/-- Value of `str`, else `none` (serde: type mismatch). -/
def YamlVal.asStr? : YamlVal → Option String
  | .str s => some s
  | _ => none

/-- Value of `boolVal`, else `none`. -/
def YamlVal.asBool? : YamlVal → Option Bool
  | .boolVal b => some b
  | _ => none

/-- A non-negative integer (Rust `usize`), else `none`. -/
def YamlVal.asUsize? : YamlVal → Option Nat
  | .intVal n => if n < 0 then none else some n.toNat
  | _ => none

/-- An integer (Rust `i64`), else `none`. -/
def YamlVal.asI64? : YamlVal → Option Int
  | .intVal n => some n
  | _ => none

/-- A sequence of strings (Rust `Vec<String>`), else `none`. -/
def YamlVal.asStrList? : YamlVal → Option (List String)
  | .list l => l.mapM YamlVal.asStr?
  | _ => none

/-- A raw mapping (`serde_yaml::Mapping`), else `none`. -/
def YamlVal.asMapping? : YamlVal → Option (List (YamlVal × YamlVal))
  | .mapping m => some m
  | _ => none

/-- First value stored under key `k` in the document. -/
def lookupKey (doc : YamlDoc) (k : String) : Option YamlVal :=
  (doc.find? (fun kv => kv.1 == k)).map (fun kv => kv.2)

/-- serde semantics of one `#[serde(default)] Option<T>` field, the
acceptance half: an absent key is fine (it yields `None`); a present
key must have the right shape, otherwise the whole deserialization
fails. -/
def fieldOk {α : Type} (shape : YamlVal → Option α) (doc : YamlDoc) (k : String) : Bool :=
  match lookupKey doc k with
  | none => true
  | some v => (shape v).isSome

/-- serde semantics of one `#[serde(default)] Option<T>` field, the
value half: the key's value coerced through its shape (`none` when the
key is absent). -/
def readField {α : Type} (shape : YamlVal → Option α) (doc : YamlDoc) (k : String) : Option α :=
  (lookupKey doc k).bind shape

/-- The raw config-file schema, from `YAMLConfig` in
`src/parse_config/yaml_config.rs` (fields in declaration order; each is
`#[serde(default)]`, i.e. optional). -/
structure YAMLConfig where
  label : Option String
  backend : Option String
  enable : Option Bool
  clipboard_threshold : Option Nat
  pre_paste_delay : Option Nat
  toggle_key : Option String
  auto_restart : Option Bool
  preserve_clipboard : Option Bool
  restore_clipboard_delay : Option Nat
  paste_shortcut_event_delay : Option Nat
  paste_shortcut : Option String
  disable_x11_fast_inject : Option Bool
  inject_delay : Option Nat
  key_delay : Option Nat
  backspace_delay : Option Nat
  evdev_modifier_delay : Option Nat
  word_separators : Option (List String)
  backspace_limit : Option Nat
  apply_patch : Option Bool
  keyboard_layout : Option (List (YamlVal × YamlVal))
  search_trigger : Option String
  search_shortcut : Option String
  undo_backspace : Option Bool
  show_notifications : Option Bool
  show_icon : Option Bool
  post_form_delay : Option Nat
  post_search_delay : Option Nat
  secure_input_notification : Option Bool
  emulate_alt_codes : Option Bool
  win32_exclude_orphan_events : Option Bool
  win32_keyboard_layout_cache_interval : Option Int
  x11_use_xclip_backend : Option Bool
  x11_use_xdotool_backend : Option Bool
  includes : Option (List String)
  excludes : Option (List String)
  extra_includes : Option (List String)
  extra_excludes : Option (List String)
  use_standard_includes : Option Bool
  filter_title : Option String
  filter_class : Option String
  filter_exec : Option String
  filter_os : Option String

/-- Deserializing a YAML mapping into `YAMLConfig`: each field is read
from its own key (absent key means `None`), unknown keys are ignored.
Fails (`none`) only when a present key has the wrong shape. -/
def parseYAMLConfig (doc : YamlDoc) : Option YAMLConfig :=
  if fieldOk YamlVal.asStr? doc "label"
     && fieldOk YamlVal.asStr? doc "backend"
     && fieldOk YamlVal.asBool? doc "enable"
     && fieldOk YamlVal.asUsize? doc "clipboard_threshold"
     && fieldOk YamlVal.asUsize? doc "pre_paste_delay"
     && fieldOk YamlVal.asStr? doc "toggle_key"
     && fieldOk YamlVal.asBool? doc "auto_restart"
     && fieldOk YamlVal.asBool? doc "preserve_clipboard"
     && fieldOk YamlVal.asUsize? doc "restore_clipboard_delay"
     && fieldOk YamlVal.asUsize? doc "paste_shortcut_event_delay"
     && fieldOk YamlVal.asStr? doc "paste_shortcut"
     && fieldOk YamlVal.asBool? doc "disable_x11_fast_inject"
     && fieldOk YamlVal.asUsize? doc "inject_delay"
     && fieldOk YamlVal.asUsize? doc "key_delay"
     && fieldOk YamlVal.asUsize? doc "backspace_delay"
     && fieldOk YamlVal.asUsize? doc "evdev_modifier_delay"
     && fieldOk YamlVal.asStrList? doc "word_separators"
     && fieldOk YamlVal.asUsize? doc "backspace_limit"
     && fieldOk YamlVal.asBool? doc "apply_patch"
     && fieldOk YamlVal.asMapping? doc "keyboard_layout"
     && fieldOk YamlVal.asStr? doc "search_trigger"
     && fieldOk YamlVal.asStr? doc "search_shortcut"
     && fieldOk YamlVal.asBool? doc "undo_backspace"
     && fieldOk YamlVal.asBool? doc "show_notifications"
     && fieldOk YamlVal.asBool? doc "show_icon"
     && fieldOk YamlVal.asUsize? doc "post_form_delay"
     && fieldOk YamlVal.asUsize? doc "post_search_delay"
     && fieldOk YamlVal.asBool? doc "secure_input_notification"
     && fieldOk YamlVal.asBool? doc "emulate_alt_codes"
     && fieldOk YamlVal.asBool? doc "win32_exclude_orphan_events"
     && fieldOk YamlVal.asI64? doc "win32_keyboard_layout_cache_interval"
     && fieldOk YamlVal.asBool? doc "x11_use_xclip_backend"
     && fieldOk YamlVal.asBool? doc "x11_use_xdotool_backend"
     && fieldOk YamlVal.asStrList? doc "includes"
     && fieldOk YamlVal.asStrList? doc "excludes"
     && fieldOk YamlVal.asStrList? doc "extra_includes"
     && fieldOk YamlVal.asStrList? doc "extra_excludes"
     && fieldOk YamlVal.asBool? doc "use_standard_includes"
     && fieldOk YamlVal.asStr? doc "filter_title"
     && fieldOk YamlVal.asStr? doc "filter_class"
     && fieldOk YamlVal.asStr? doc "filter_exec"
     && fieldOk YamlVal.asStr? doc "filter_os"
  then some (YAMLConfig.mk
    (readField YamlVal.asStr? doc "label")
    (readField YamlVal.asStr? doc "backend")
    (readField YamlVal.asBool? doc "enable")
    (readField YamlVal.asUsize? doc "clipboard_threshold")
    (readField YamlVal.asUsize? doc "pre_paste_delay")
    (readField YamlVal.asStr? doc "toggle_key")
    (readField YamlVal.asBool? doc "auto_restart")
    (readField YamlVal.asBool? doc "preserve_clipboard")
    (readField YamlVal.asUsize? doc "restore_clipboard_delay")
    (readField YamlVal.asUsize? doc "paste_shortcut_event_delay")
    (readField YamlVal.asStr? doc "paste_shortcut")
    (readField YamlVal.asBool? doc "disable_x11_fast_inject")
    (readField YamlVal.asUsize? doc "inject_delay")
    (readField YamlVal.asUsize? doc "key_delay")
    (readField YamlVal.asUsize? doc "backspace_delay")
    (readField YamlVal.asUsize? doc "evdev_modifier_delay")
    (readField YamlVal.asStrList? doc "word_separators")
    (readField YamlVal.asUsize? doc "backspace_limit")
    (readField YamlVal.asBool? doc "apply_patch")
    (readField YamlVal.asMapping? doc "keyboard_layout")
    (readField YamlVal.asStr? doc "search_trigger")
    (readField YamlVal.asStr? doc "search_shortcut")
    (readField YamlVal.asBool? doc "undo_backspace")
    (readField YamlVal.asBool? doc "show_notifications")
    (readField YamlVal.asBool? doc "show_icon")
    (readField YamlVal.asUsize? doc "post_form_delay")
    (readField YamlVal.asUsize? doc "post_search_delay")
    (readField YamlVal.asBool? doc "secure_input_notification")
    (readField YamlVal.asBool? doc "emulate_alt_codes")
    (readField YamlVal.asBool? doc "win32_exclude_orphan_events")
    (readField YamlVal.asI64? doc "win32_keyboard_layout_cache_interval")
    (readField YamlVal.asBool? doc "x11_use_xclip_backend")
    (readField YamlVal.asBool? doc "x11_use_xdotool_backend")
    (readField YamlVal.asStrList? doc "includes")
    (readField YamlVal.asStrList? doc "excludes")
    (readField YamlVal.asStrList? doc "extra_includes")
    (readField YamlVal.asStrList? doc "extra_excludes")
    (readField YamlVal.asBool? doc "use_standard_includes")
    (readField YamlVal.asStr? doc "filter_title")
    (readField YamlVal.asStr? doc "filter_class")
    (readField YamlVal.asStr? doc "filter_exec")
    (readField YamlVal.asStr? doc "filter_os"))
  else none

/-- The in-memory config record, target of `TryFrom<YAMLConfig> for
ParsedConfig` (`src/parse_config/yaml_config.rs`, fields in the order
of the `try_from` constructor; the struct itself lives in
`src/parse_config/mod.rs`, not present in the tree). -/
structure ParsedConfig where
  label : Option String
  backend : Option String
  enable : Option Bool
  clipboard_threshold : Option Nat
  auto_restart : Option Bool
  toggle_key : Option String
  preserve_clipboard : Option Bool
  paste_shortcut : Option String
  disable_x11_fast_inject : Option Bool
  inject_delay : Option Nat
  key_delay : Option Nat
  evdev_modifier_delay : Option Nat
  word_separators : Option (List String)
  backspace_limit : Option Nat
  apply_patch : Option Bool
  keyboard_layout : Option (List (String × String))
  search_trigger : Option String
  search_shortcut : Option String
  undo_backspace : Option Bool
  show_icon : Option Bool
  show_notifications : Option Bool
  secure_input_notification : Option Bool
  pre_paste_delay : Option Nat
  restore_clipboard_delay : Option Nat
  paste_shortcut_event_delay : Option Nat
  post_form_delay : Option Nat
  post_search_delay : Option Nat
  emulate_alt_codes : Option Bool
  win32_exclude_orphan_events : Option Bool
  win32_keyboard_layout_cache_interval : Option Int
  x11_use_xclip_backend : Option Bool
  x11_use_xdotool_backend : Option Bool
  use_standard_includes : Option Bool
  includes : Option (List String)
  extra_includes : Option (List String)
  excludes : Option (List String)
  extra_excludes : Option (List String)
  filter_class : Option String
  filter_exec : Option String
  filter_os : Option String
  filter_title : Option String
deriving DecidableEq, Repr

/-- `ParsedConfig::default()`: every field unset. -/
def ParsedConfig.default : ParsedConfig :=
  { label := none, backend := none, enable := none, clipboard_threshold := none,
    auto_restart := none, toggle_key := none, preserve_clipboard := none,
    paste_shortcut := none, disable_x11_fast_inject := none, inject_delay := none,
    key_delay := none, evdev_modifier_delay := none, word_separators := none,
    backspace_limit := none, apply_patch := none, keyboard_layout := none,
    search_trigger := none, search_shortcut := none, undo_backspace := none,
    show_icon := none, show_notifications := none, secure_input_notification := none,
    pre_paste_delay := none, restore_clipboard_delay := none,
    paste_shortcut_event_delay := none, post_form_delay := none,
    post_search_delay := none, emulate_alt_codes := none,
    win32_exclude_orphan_events := none, win32_keyboard_layout_cache_interval := none,
    x11_use_xclip_backend := none, x11_use_xdotool_backend := none,
    use_standard_includes := none, includes := none, extra_includes := none,
    excludes := none, extra_excludes := none, filter_class := none,
    filter_exec := none, filter_os := none, filter_title := none }

/-- `TryFrom<YAMLConfig> for ParsedConfig` (`src/parse_config/yaml_config.rs`
lines 159–224).  Notably `key_delay` is
`yaml_config.key_delay.or(yaml_config.backspace_delay)`, and the
keyboard-layout mapping keeps exactly the entries whose key and value
are both strings. -/
def ParsedConfig.ofYAMLConfig (yaml_config : YAMLConfig) : ParsedConfig :=
  { label := yaml_config.label
    backend := yaml_config.backend
    enable := yaml_config.enable
    clipboard_threshold := yaml_config.clipboard_threshold
    auto_restart := yaml_config.auto_restart
    toggle_key := yaml_config.toggle_key
    preserve_clipboard := yaml_config.preserve_clipboard
    paste_shortcut := yaml_config.paste_shortcut
    disable_x11_fast_inject := yaml_config.disable_x11_fast_inject
    inject_delay := yaml_config.inject_delay
    key_delay := yaml_config.key_delay.or yaml_config.backspace_delay
    evdev_modifier_delay := yaml_config.evdev_modifier_delay
    word_separators := yaml_config.word_separators
    backspace_limit := yaml_config.backspace_limit
    apply_patch := yaml_config.apply_patch
    keyboard_layout := yaml_config.keyboard_layout.map (fun mapping =>
      mapping.filterMap (fun kv =>
        match kv.1.asStr?, kv.2.asStr? with
        | some key, some value => some (key, value)
        | _, _ => none))
    search_trigger := yaml_config.search_trigger
    search_shortcut := yaml_config.search_shortcut
    undo_backspace := yaml_config.undo_backspace
    show_icon := yaml_config.show_icon
    show_notifications := yaml_config.show_notifications
    secure_input_notification := yaml_config.secure_input_notification
    pre_paste_delay := yaml_config.pre_paste_delay
    restore_clipboard_delay := yaml_config.restore_clipboard_delay
    paste_shortcut_event_delay := yaml_config.paste_shortcut_event_delay
    post_form_delay := yaml_config.post_form_delay
    post_search_delay := yaml_config.post_search_delay
    emulate_alt_codes := yaml_config.emulate_alt_codes
    win32_exclude_orphan_events := yaml_config.win32_exclude_orphan_events
    win32_keyboard_layout_cache_interval := yaml_config.win32_keyboard_layout_cache_interval
    x11_use_xclip_backend := yaml_config.x11_use_xclip_backend
    x11_use_xdotool_backend := yaml_config.x11_use_xdotool_backend
    use_standard_includes := yaml_config.use_standard_includes
    includes := yaml_config.includes
    extra_includes := yaml_config.extra_includes
    excludes := yaml_config.excludes
    extra_excludes := yaml_config.extra_excludes
    filter_class := yaml_config.filter_class
    filter_exec := yaml_config.filter_exec
    filter_os := yaml_config.filter_os
    filter_title := yaml_config.filter_title }

/-- The disk, as seen through the two parsers the program uses: match
files are read as `EspansoYaml` documents, the config file as a YAML
mapping.  `none` means the path does not hold a file that parses in
that shape. -/
structure Disk where
  matchFiles : String → Option EspansoYaml
  configFiles : String → Option YamlDoc

/-- Encoding of a `usize` back into YAML. -/
def YamlVal.ofUsize (n : Nat) : YamlVal := .intVal n

/-- Encoding of a `Vec<String>` back into YAML. -/
def YamlVal.ofStrList (l : List String) : YamlVal := .list (l.map .str)

/-- Encoding of a `BTreeMap<String, String>` back into YAML. -/
def YamlVal.ofStrMap (m : List (String × String)) : YamlVal :=
  .mapping (m.map (fun kv => (.str kv.1, .str kv.2)))

/-- One serialized entry of an optional field: nothing when the field
is `none`, the key/value pair when it is `some`. -/
def optEntry {α : Type} (k : String) (enc : α → YamlVal) : Option α → YamlDoc
  | none => []
  | some v => [(k, enc v)]

/-- Modelled from the spec: the serde `Serialize` attributes of
`ParsedConfig` live in `src/parse_config/mod.rs`, which is not in the
source tree.  Per the spec, `save(path, options)` "serializes exactly
the optional fields that are `Some`-valued", i.e. every `None` field
is skipped.  Keys are emitted in the record's field order. -/
def serializeParsedConfig (c : ParsedConfig) : YamlDoc :=
  optEntry "label" .str c.label
  ++ optEntry "backend" .str c.backend
  ++ optEntry "enable" .boolVal c.enable
  ++ optEntry "clipboard_threshold" .ofUsize c.clipboard_threshold
  ++ optEntry "auto_restart" .boolVal c.auto_restart
  ++ optEntry "toggle_key" .str c.toggle_key
  ++ optEntry "preserve_clipboard" .boolVal c.preserve_clipboard
  ++ optEntry "paste_shortcut" .str c.paste_shortcut
  ++ optEntry "disable_x11_fast_inject" .boolVal c.disable_x11_fast_inject
  ++ optEntry "inject_delay" .ofUsize c.inject_delay
  ++ optEntry "key_delay" .ofUsize c.key_delay
  ++ optEntry "evdev_modifier_delay" .ofUsize c.evdev_modifier_delay
  ++ optEntry "word_separators" .ofStrList c.word_separators
  ++ optEntry "backspace_limit" .ofUsize c.backspace_limit
  ++ optEntry "apply_patch" .boolVal c.apply_patch
  ++ optEntry "keyboard_layout" .ofStrMap c.keyboard_layout
  ++ optEntry "search_trigger" .str c.search_trigger
  ++ optEntry "search_shortcut" .str c.search_shortcut
  ++ optEntry "undo_backspace" .boolVal c.undo_backspace
  ++ optEntry "show_icon" .boolVal c.show_icon
  ++ optEntry "show_notifications" .boolVal c.show_notifications
  ++ optEntry "secure_input_notification" .boolVal c.secure_input_notification
  ++ optEntry "pre_paste_delay" .ofUsize c.pre_paste_delay
  ++ optEntry "restore_clipboard_delay" .ofUsize c.restore_clipboard_delay
  ++ optEntry "paste_shortcut_event_delay" .ofUsize c.paste_shortcut_event_delay
  ++ optEntry "post_form_delay" .ofUsize c.post_form_delay
  ++ optEntry "post_search_delay" .ofUsize c.post_search_delay
  ++ optEntry "emulate_alt_codes" .boolVal c.emulate_alt_codes
  ++ optEntry "win32_exclude_orphan_events" .boolVal c.win32_exclude_orphan_events
  ++ optEntry "win32_keyboard_layout_cache_interval" .intVal c.win32_keyboard_layout_cache_interval
  ++ optEntry "x11_use_xclip_backend" .boolVal c.x11_use_xclip_backend
  ++ optEntry "x11_use_xdotool_backend" .boolVal c.x11_use_xdotool_backend
  ++ optEntry "use_standard_includes" .boolVal c.use_standard_includes
  ++ optEntry "includes" .ofStrList c.includes
  ++ optEntry "extra_includes" .ofStrList c.extra_includes
  ++ optEntry "excludes" .ofStrList c.excludes
  ++ optEntry "extra_excludes" .ofStrList c.extra_excludes
  ++ optEntry "filter_class" .str c.filter_class
  ++ optEntry "filter_exec" .str c.filter_exec
  ++ optEntry "filter_os" .str c.filter_os
  ++ optEntry "filter_title" .str c.filter_title

/-- `read_to_triggers` (`src/app.rs`): opens and parses the file
(`expect` panics — modelled `none` — when it is absent/unparsable),
then filters out pairs whose trigger or replace is the empty string. -/
def read_to_triggers (disk : Disk) (path : String) : Option EspansoYaml :=
  match disk.matchFiles path with
  | none => none
  | some yaml => some ⟨yaml.matches.filter keepPair⟩

/-- `write_from_triggers` (`src/app.rs`): truncates/creates the file at
`path` and serializes `edited_file` into it. -/
def write_from_triggers (disk : Disk) (path : String) (edited_file : EspansoYaml) : Disk :=
  { disk with matchFiles := fun p => if p = path then some edited_file else disk.matchFiles p }

/-- `create_new_yml_file` (`src/app.rs`): truncates/creates the file and
writes `EspansoYaml::default()` into it. -/
def create_new_yml_file (disk : Disk) (file_path : String) : Disk :=
  { disk with matchFiles := fun p => if p = file_path then some EspansoYaml.default else disk.matchFiles p }

/-- Modelled from the spec: `ParsedConfig::load` lives in
`src/parse_config/mod.rs`, which is not in the source tree.  Per the
spec it reads the file and "parses YAML into the full optional-field
record"; the parsing and conversion themselves are `parseYAMLConfig`
and `ParsedConfig.ofYAMLConfig`, both translated from
`src/parse_config/yaml_config.rs`.  `none` models the `Err` result
(missing file or wrongly-shaped key). -/
def ParsedConfig.load (disk : Disk) (path : String) : Option ParsedConfig :=
  match disk.configFiles path with
  | none => none
  | some doc => (parseYAMLConfig doc).map ParsedConfig.ofYAMLConfig

/-- `overwrite_config` (`src/app.rs`): truncates/creates the file at
`path` and serializes `config` into it. -/
def overwrite_config (disk : Disk) (path : String) (config : ParsedConfig) : Disk :=
  { disk with configFiles := fun p => if p = path then some (serializeParsedConfig config) else disk.configFiles p }

/-- `is_valid_file_name` (`src/app.rs`): the regex `^[\w\-. ]+$`,
i.e. a non-empty string of word characters, hyphens, periods and
spaces.  `\w` is modelled by ASCII alphanumerics plus underscore. -/
def isWordChar (c : Char) : Bool := c.isAlphanum || c = '_'

/-- A character allowed by the `^[\w\-. ]+$` file-name regex. -/
def isFileNameChar (c : Char) : Bool := isWordChar c || c = '-' || c = '.' || c = ' '

/-- `is_valid_file_name` (`src/app.rs` line 1482). -/
def is_valid_file_name (file_name : String) : Bool :=
  !file_name.isEmpty && file_name.data.all isFileNameChar

/-- The directory/file predicates `valid_espanso_dir` consults
(`PathBuf::is_dir` / `Path::is_file`); a pure snapshot of the
filesystem. -/
structure FileSystem where
  isDir : String → Bool
  isFile : String → Bool

/-- `PathBuf::join` on the paths this program uses. -/
def pathJoin (a b : String) : String := a ++ "/" ++ b

/-- `valid_espanso_dir` (`src/app.rs` lines 1420–1433): `path/config`
is a directory, `path/match` is a directory, and
`path/config/default.yml` is a regular file. -/
def valid_espanso_dir (fs : FileSystem) (selected_dir : String) : Bool :=
  let config_dir := pathJoin selected_dir "config"
  let match_dir := pathJoin selected_dir "match"
  let config_exists := fs.isDir config_dir
  let match_exists := fs.isDir match_dir
  let config_yml_exists := fs.isFile (pathJoin selected_dir "config/default.yml")
  if config_exists && match_exists && config_yml_exists then true else false

/-- Adding one regular file to the filesystem snapshot. -/
def FileSystem.addFile (fs : FileSystem) (q : String) : FileSystem :=
  { fs with isFile := fun p => if p = q then true else fs.isFile p }

/-- Adding one directory to the filesystem snapshot. -/
def FileSystem.addDir (fs : FileSystem) (q : String) : FileSystem :=
  { fs with isDir := fun p => if p = q then true else fs.isDir p }

/-- The fields of `State` (`src/app.rs`) that the modelled handlers
read or write.  The cached `match_files` listing and the modal OK-text
are presentation details left out of the model. -/
structure AppState where
  espanso_loc : String
  selected_nav : String
  selected_file : String
  original_file : EspansoYaml
  edited_file : EspansoYaml
  original_config : ParsedConfig
  edited_config : ParsedConfig
  show_modal : Bool
  modal_title : String
  modal_description : String
  nav_queue : String
  show_new_file_input : Bool
  new_file_name : String
  file_name_change : String
deriving DecidableEq, Repr

/-- `Message::NavigateTo(value)` (`src/app.rs` lines 266–308): records
the destination, resets both file copies to defaults, then loads the
config file (`"eg-Config"`), clears the selection (`"eg-Settings"`,
`"eg-About"`), or reads the chosen match file.  In the config branch a
failed load only logs (`eprintln`); in the match branch
`read_to_triggers` panics (`none`) when the file cannot be read.  On a
successful config load the unset `backend`/`toggle_key` pickers are
coerced to `"Auto"`/`"OFF"` before `edited_config` is cloned from
`original_config`. -/
def navigateTo (disk : Disk) (st : AppState) (value : String) : Option (AppState × Disk) :=
  let st := { st with selected_nav := value,
                      original_file := EspansoYaml.default,
                      edited_file := EspansoYaml.default }
  if value = "eg-Config" then
    let path := st.espanso_loc ++ "/config/default.yml"
    let st := { st with selected_file := path }
    match ParsedConfig.load disk path with
    | some config =>
      let oc := config
      let oc := if oc.backend = none then { oc with backend := some "Auto" } else oc
      let oc := if oc.toggle_key = none then { oc with toggle_key := some "OFF" } else oc
      some ({ st with original_config := oc, edited_config := oc }, disk)
    | none => some (st, disk)
  else if value = "eg-Settings" then
    some ({ st with selected_file := "" }, disk)
  else if value = "eg-About" then
    some ({ st with selected_file := "" }, disk)
  else
    let path := st.espanso_loc ++ "/match/" ++ st.selected_nav ++ ".yml"
    match read_to_triggers disk path with
    | none => none
    | some yaml =>
      some ({ st with selected_file := path,
                      original_file := yaml,
                      edited_file := yaml,
                      file_name_change := st.selected_nav }, disk)

/-- `Message::ResetPressed` (`src/app.rs` lines 352–354):
`edited_file := original_file`. -/
def resetPressed (st : AppState) : AppState :=
  { st with edited_file := st.original_file }

/-- Rust `str::trim`: the string with leading and trailing whitespace
removed. -/
def rustTrim (s : String) : String :=
  ⟨((s.data.dropWhile Char.isWhitespace).reverse.dropWhile Char.isWhitespace).reverse⟩

/-- The `empty_lines` loop of `Message::SaveFilePressed`: some edited
pair has an empty-after-trim trigger or replace. -/
def hasEmptyTrimPair (pairs : List YamlPairs) : Bool :=
  pairs.any (fun p => (rustTrim p.trigger).isEmpty || (rustTrim p.replace).isEmpty)

/-- `Message::SaveFilePressed` (`src/app.rs` lines 355–374): if any
edited pair has an empty-after-trim trigger or replace, raise the
"Empty Lines" modal and touch nothing else; otherwise write the edited
copy to the selected file and promote it to `original_file`. -/
def saveFilePressed (disk : Disk) (st : AppState) : AppState × Disk :=
  let empty_lines := hasEmptyTrimPair st.edited_file.matches
  if empty_lines then
    ({ st with modal_title := "Empty Lines",
               modal_description := "No text boxes can be empty.",
               nav_queue := if st.nav_queue.isEmpty then st.nav_queue else "",
               show_modal := true }, disk)
  else
    ({ st with original_file := st.edited_file },
     write_from_triggers disk st.selected_file st.edited_file)

/-- `Message::YamlInputChanged(new_str, i, trig_repl)` (`src/app.rs`
lines 259–265): `edited_file.matches.get_mut(i).unwrap()` then assign
the trigger (when `trig_repl == "trigger"`) or the replace field.  The
`unwrap` panics — modelled `none` — when `i` is out of range. -/
def yamlInputChanged (st : AppState) (new_str : String) (i : Nat) (trig_repl : String) :
    Option AppState :=
  if trig_repl = "trigger" then
    match st.edited_file.matches[i]? with
    | none => none
    | some pair =>
      some { st with edited_file := ⟨st.edited_file.matches.set i { pair with trigger := new_str }⟩ }
  else
    match st.edited_file.matches[i]? with
    | none => none
    | some pair =>
      some { st with edited_file := ⟨st.edited_file.matches.set i { pair with replace := new_str }⟩ }

/-- `Message::BackendPicked(value)` (`src/app.rs` line 434):
`edited_config.backend = Some(value)`. -/
def backendPicked (st : AppState) (value : String) : AppState :=
  { st with edited_config := { st.edited_config with backend := some value } }

/-- `Message::EnableToggled(value)` (`src/app.rs` line 435):
`edited_config.enable = Some(value)`. -/
def enableToggled (st : AppState) (value : Bool) : AppState :=
  { st with edited_config := { st.edited_config with enable := some value } }

/-- `Message::ToggleKeyPicked(value)` (`src/app.rs` line 436):
`edited_config.toggle_key = Some(value)`. -/
def toggleKeyPicked (st : AppState) (value : String) : AppState :=
  { st with edited_config := { st.edited_config with toggle_key := some value } }

/-- `Message::InjectDelayInput(value)` (`src/app.rs` line 437):
`edited_config.inject_delay = Some(value)`. -/
def injectDelayInput (st : AppState) (value : Nat) : AppState :=
  { st with edited_config := { st.edited_config with inject_delay := some value } }

/-- `Message::KeyDelayInput(value)` (`src/app.rs` line 438):
`edited_config.key_delay = Some(value)`. -/
def keyDelayInput (st : AppState) (value : Nat) : AppState :=
  { st with edited_config := { st.edited_config with key_delay := some value } }

/-- `Message::ClipboardThresholdInput(value)` (`src/app.rs` lines 439-441):
`edited_config.clipboard_threshold = Some(value)`. -/
def clipboardThresholdInput (st : AppState) (value : Nat) : AppState :=
  { st with edited_config := { st.edited_config with clipboard_threshold := some value } }

/-- `Message::PasteShortcutInput(value)` (`src/app.rs` lines 442-444):
`edited_config.paste_shortcut = Some(value)`. -/
def pasteShortcutInput (st : AppState) (value : String) : AppState :=
  { st with edited_config := { st.edited_config with paste_shortcut := some value } }

/-- `Message::SearchShortcutInput(value)` (`src/app.rs` lines 445-447):
`edited_config.search_shortcut = Some(value)`. -/
def searchShortcutInput (st : AppState) (value : String) : AppState :=
  { st with edited_config := { st.edited_config with search_shortcut := some value } }

/-- `Message::SearchTriggerInput(value)` (`src/app.rs` lines 448-450):
`edited_config.search_trigger = Some(value)`. -/
def searchTriggerInput (st : AppState) (value : String) : AppState :=
  { st with edited_config := { st.edited_config with search_trigger := some value } }

/-- `Message::PrePasteDelayInput(value)` (`src/app.rs` lines 451-453):
`edited_config.pre_paste_delay = Some(value)`. -/
def prePasteDelayInput (st : AppState) (value : Nat) : AppState :=
  { st with edited_config := { st.edited_config with pre_paste_delay := some value } }

/-- `Message::X11FastInjectToggled(value)` (`src/app.rs` lines 454-456):
`edited_config.disable_x11_fast_inject = Some(value)`. -/
def x11FastInjectToggled (st : AppState) (value : Bool) : AppState :=
  { st with edited_config := { st.edited_config with disable_x11_fast_inject := some value } }

/-- `Message::PasteShortcutEventDelayInput(value)` (`src/app.rs` lines 457-459):
`edited_config.paste_shortcut_event_delay = Some(value)`. -/
def pasteShortcutEventDelayInput (st : AppState) (value : Nat) : AppState :=
  { st with edited_config := { st.edited_config with paste_shortcut_event_delay := some value } }

/-- `Message::AutoRestartToggled(value)` (`src/app.rs` lines 460-462):
`edited_config.auto_restart = Some(value)`. -/
def autoRestartToggled (st : AppState) (value : Bool) : AppState :=
  { st with edited_config := { st.edited_config with auto_restart := some value } }

/-- `Message::PreserveClipboardToggled(value)` (`src/app.rs` lines 463-465):
`edited_config.preserve_clipboard = Some(value)`. -/
def preserveClipboardToggled (st : AppState) (value : Bool) : AppState :=
  { st with edited_config := { st.edited_config with preserve_clipboard := some value } }

/-- `Message::RestoreClipboardDelayInput(value)` (`src/app.rs` lines 466-468):
`edited_config.restore_clipboard_delay = Some(value)`. -/
def restoreClipboardDelayInput (st : AppState) (value : Nat) : AppState :=
  { st with edited_config := { st.edited_config with restore_clipboard_delay := some value } }

/-- `Message::EvdevModifierDelayInput(value)` (`src/app.rs` lines 469-471):
`edited_config.evdev_modifier_delay = Some(value)`. -/
def evdevModifierDelayInput (st : AppState) (value : Nat) : AppState :=
  { st with edited_config := { st.edited_config with evdev_modifier_delay := some value } }

/-- `Message::BackspaceLimitInput(value)` (`src/app.rs` lines 476-478):
`edited_config.backspace_limit = Some(value)`. -/
def backspaceLimitInput (st : AppState) (value : Nat) : AppState :=
  { st with edited_config := { st.edited_config with backspace_limit := some value } }

/-- `Message::ApplyPatchToggled(value)` (`src/app.rs` line 479):
`edited_config.apply_patch = Some(value)`. -/
def applyPatchToggled (st : AppState) (value : Bool) : AppState :=
  { st with edited_config := { st.edited_config with apply_patch := some value } }

/-- `Message::UndoBackspaceToggled(value)` (`src/app.rs` lines 485-487):
`edited_config.undo_backspace = Some(value)`. -/
def undoBackspaceToggled (st : AppState) (value : Bool) : AppState :=
  { st with edited_config := { st.edited_config with undo_backspace := some value } }

/-- `Message::ShowNotificationsToggled(value)` (`src/app.rs` lines 488-490):
`edited_config.show_notifications = Some(value)`. -/
def showNotificationsToggled (st : AppState) (value : Bool) : AppState :=
  { st with edited_config := { st.edited_config with show_notifications := some value } }

/-- `Message::ShowIconToggled(value)` (`src/app.rs` line 491):
`edited_config.show_icon = Some(value)`. -/
def showIconToggled (st : AppState) (value : Bool) : AppState :=
  { st with edited_config := { st.edited_config with show_icon := some value } }

/-- `Message::UseXclipBackendToggled(value)` (`src/app.rs` lines 492-494):
`edited_config.x11_use_xclip_backend = Some(value)`. -/
def useXclipBackendToggled (st : AppState) (value : Bool) : AppState :=
  { st with edited_config := { st.edited_config with x11_use_xclip_backend := some value } }

/-- `Message::ExcludeOrphanEventsToggled(value)` (`src/app.rs` lines 495-497):
`edited_config.win32_exclude_orphan_events = Some(value)`. -/
def excludeOrphanEventsToggled (st : AppState) (value : Bool) : AppState :=
  { st with edited_config := { st.edited_config with win32_exclude_orphan_events := some value } }

/-- `Message::KeyboardLayoutCacheIntervalInput(value)` (`src/app.rs` lines 498-500):
`edited_config.win32_keyboard_layout_cache_interval = Some(value)`. -/
def keyboardLayoutCacheIntervalInput (st : AppState) (value : Int) : AppState :=
  { st with edited_config := { st.edited_config with win32_keyboard_layout_cache_interval := some value } }

/-- `Message::SaveConfigPressed` (`src/app.rs` lines 501–504): write
`edited_config` to the selected file, then promote it to
`original_config`. -/
def saveConfigPressed (disk : Disk) (st : AppState) : AppState × Disk :=
  ({ st with original_config := st.edited_config },
   overwrite_config disk st.selected_file st.edited_config)

/-- `Message::UndoConfigPressed` (`src/app.rs` line 512):
`edited_config := original_config`. -/
def undoConfigPressed (st : AppState) : AppState :=
  { st with edited_config := st.original_config }

/-- `std::fs::rename` on the modelled disk; on a missing source the OS
call fails and the handler only logs, leaving the disk unchanged. -/
def diskRename (disk : Disk) (fromPath toPath : String) : Disk :=
  match disk.matchFiles fromPath with
  | none => disk
  | some v =>
    { disk with matchFiles := fun p =>
        if p = toPath then some v
        else if p = fromPath then none
        else disk.matchFiles p }

/-- `Message::FileNameChangeSubmit` (`src/app.rs` lines 405–424): only
when the new stem differs from the current one and passes
`is_valid_file_name` does it rename the file and update the
selection; otherwise nothing at all happens. -/
def fileNameChangeSubmit (disk : Disk) (st : AppState) : AppState × Disk :=
  if st.file_name_change != st.selected_nav && is_valid_file_name st.file_name_change then
    let match_path := pathJoin st.espanso_loc "match"
    let from_path := pathJoin match_path (st.selected_nav ++ ".yml")
    let to_path := pathJoin match_path (st.file_name_change ++ ".yml")
    ({ st with selected_nav := st.file_name_change, selected_file := to_path },
     diskRename disk from_path to_path)
  else (st, disk)

/-- Rust `str::ends_with`. -/
def rustEndsWith (s suffix : String) : Bool := suffix.data.isSuffixOf s.data

/-- Rust `str::len`-many characters dropped from the right. -/
def rustDropRight (s : String) (n : Nat) : String := ⟨s.data.take (s.data.length - n)⟩

/-- Rust `str::trim_end_matches(".yml")`: strips every repetition of
the suffix. -/
def trimEndYmlAux : Nat → String → String
  | 0, s => s
  | fuel + 1, s => if rustEndsWith s ".yml" then trimEndYmlAux fuel (rustDropRight s 4) else s

/-- Rust `str::trim_end_matches(".yml")`. -/
def trimEndYml (s : String) : String := trimEndYmlAux s.data.length s

/-- `Message::SubmitNewFileName` (`src/app.rs` lines 384–399): hides
the input; when the typed name is non-blank, strips a trailing `.yml`
and writes an empty match file at
`espanso_loc + "/match/" + name + ".yml"` — with no validity check on
the name. -/
def submitNewFileName (disk : Disk) (st : AppState) : AppState × Disk :=
  let st := { st with show_new_file_input := false }
  if (rustTrim st.new_file_name).isEmpty then (st, disk)
  else
    let name := if rustEndsWith st.new_file_name ".yml" then trimEndYml st.new_file_name
                else st.new_file_name
    let disk := create_new_yml_file disk (st.espanso_loc ++ "/match/" ++ name ++ ".yml")
    ({ st with new_file_name := "" }, disk)

/-- JSON insignificant whitespace. -/
def jsonWs (c : Char) : Bool := c = ' ' || c = '\t' || c = '\n' || c = '\r'

/-- Drop leading JSON whitespace. -/
def jsonSkipWs (l : List Char) : List Char := l.dropWhile jsonWs

/-- Body of a JSON string after the opening quote: consume characters
up to the closing quote, decoding the escape sequences the program's
inputs use (`\"`, `\\`, `\/`, `\n`, `\r`, `\t`); anything else —
including running out of input before the closing quote — fails. -/
def parseJsonStringBody : List Char → List Char → Option (String × List Char)
  | acc, '"' :: rest => some (String.mk acc.reverse, rest)
  | acc, '\\' :: e :: rest =>
    match e with
    | '"' => parseJsonStringBody ('"' :: acc) rest
    | '\\' => parseJsonStringBody ('\\' :: acc) rest
    | '/' => parseJsonStringBody ('/' :: acc) rest
    | 'n' => parseJsonStringBody ('\n' :: acc) rest
    | 'r' => parseJsonStringBody ('\r' :: acc) rest
    | 't' => parseJsonStringBody ('\t' :: acc) rest
    | _ => none
  | acc, c :: rest => if c = '\\' then none else parseJsonStringBody (c :: acc) rest
  | _, [] => none

/-- The elements of a JSON array of strings, after the opening `[`:
either a closing `]` right away, or strings separated by commas and
then `]`.  Fuel bounds the recursion. -/
def parseJsonArrayElems : Nat → List Char → Option (List String × List Char)
  | 0, _ => none
  | fuel + 1, l =>
    match jsonSkipWs l with
    | ']' :: rest => some ([], rest)
    | '"' :: rest =>
      match parseJsonStringBody [] rest with
      | none => none
      | some (s, rest2) =>
        match jsonSkipWs rest2 with
        | ',' :: rest3 =>
          match parseJsonArrayElems fuel rest3 with
          | some (ss, rest4) =>
            match ss with
            | [] => none
            | _ => some (s :: ss, rest4)
          | none => none
        | ']' :: rest3 => some ([s], rest3)
        | _ => none
    | _ => none

/-- Model of `serde_json::from_str::<Vec<String>>`: the whole input
must be one JSON array of strings (with only whitespace around it). -/
def jsonParseStringArray (s : String) : Option (List String) :=
  match jsonSkipWs s.data with
  | '[' :: rest =>
    match parseJsonArrayElems (s.length + 1) rest with
    | some (elems, rest2) => if (jsonSkipWs rest2).isEmpty then some elems else none
    | none => none
  | _ => none

/-- `Message::WordSeparatorsInput(value)` (`src/app.rs` lines 472–475):
`Some(serde_json::from_str(&value).unwrap())` — the `unwrap` panics
(modelled `none`) whenever `value` is not a JSON array of strings;
there is no error-reporting path. -/
def wordSeparatorsInput (st : AppState) (value : String) : Option AppState :=
  match jsonParseStringArray value with
  | none => none
  | some l =>
    some { st with edited_config := { st.edited_config with word_separators := some l } }

/-- `Message::KeyboardLayoutInput(value)` (`src/app.rs` lines 480–484):
builds the JSON text `\x7b "layout": "<value>" \x7d` and parses it with
`serde_json::from_str::<BTreeMap<String, String>>(..).unwrap()`.  The
embedded string literal is modelled by running the JSON string-body
parser on `value` followed by the closing quote: a `value` that breaks
the JSON (an unescaped quote, a trailing backslash, a bad escape)
hits the unwrap panic (`none`); otherwise the decoded text is stored
under the single `layout` key. -/
def keyboardLayoutInput (st : AppState) (value : String) : Option AppState :=
  match parseJsonStringBody [] (value.data ++ ['"']) with
  | some (decoded, []) =>
    some { st with edited_config :=
      { st.edited_config with keyboard_layout := some [("layout", decoded)] } }
  | _ => none

/-- `State::default()`: empty strings, default files/configs, flags
off. -/
def AppState.default : AppState :=
  { espanso_loc := "", selected_nav := "", selected_file := "",
    original_file := EspansoYaml.default, edited_file := EspansoYaml.default,
    original_config := ParsedConfig.default, edited_config := ParsedConfig.default,
    show_modal := false, modal_title := "", modal_description := "",
    nav_queue := "", show_new_file_input := false, new_file_name := "",
    file_name_change := "" }

/-- An empty disk, used to instantiate the theorems at concrete
inputs. -/
def emptyDisk : Disk := ⟨fun _ => none, fun _ => none⟩

/-- A disk holding one match file `/e/match/greet.yml` with a kept and
a dropped pair. -/
def greetDisk : Disk :=
  ⟨fun p => if p = "/e/match/greet.yml"
            then some ⟨[⟨"hi", "there"⟩, ⟨"", "gone"⟩]⟩ else none,
   fun _ => none⟩

/-- A disk whose config file `/e/config/default.yml` contains only
`enable: true`. -/
def enableOnlyDisk : Disk :=
  ⟨fun _ => none,
   fun p => if p = "/e/config/default.yml"
            then some [("enable", YamlVal.boolVal true)] else none⟩

section Theorems

/-! ## Helper lemmas -/

/-- The default (match-file) branch of `navigateTo`, fully reduced. -/
theorem navigateTo_match_file (disk : Disk) (st : AppState) (value : String)
    (doc : EspansoYaml)
    (h1 : value ≠ "eg-Config") (h2 : value ≠ "eg-Settings") (h3 : value ≠ "eg-About")
    (h4 : disk.matchFiles (st.espanso_loc ++ "/match/" ++ value ++ ".yml") = some doc) :
    navigateTo disk st value =
      some ({ st with selected_nav := value,
                      selected_file := st.espanso_loc ++ "/match/" ++ value ++ ".yml",
                      original_file := ⟨doc.matches.filter keepPair⟩,
                      edited_file := ⟨doc.matches.filter keepPair⟩,
                      file_name_change := value }, disk) := by
  simp [navigateTo, read_to_triggers, h1, h2, h3, h4]

/-! ## C1 -/

/-- C1: `Message::SaveFilePressed` persists the edited copy at the
selected path and promotes it to `original_file` exactly when no
edited pair has an empty-after-trim trigger or replace; otherwise it
raises the "Empty Lines" modal and leaves the disk, `original_file`
and `edited_file` unchanged. -/
theorem saveFilePressed_validates (disk : Disk) (st : AppState) :
    (hasEmptyTrimPair st.edited_file.matches = false →
      (saveFilePressed disk st).2.matchFiles st.selected_file = some st.edited_file ∧
      (saveFilePressed disk st).1.original_file = st.edited_file ∧
      (saveFilePressed disk st).1.show_modal = st.show_modal ∧
      (∀ p, p ≠ st.selected_file →
        (saveFilePressed disk st).2.matchFiles p = disk.matchFiles p)) ∧
    (hasEmptyTrimPair st.edited_file.matches = true →
      (saveFilePressed disk st).1.show_modal = true ∧
      (saveFilePressed disk st).1.modal_title = "Empty Lines" ∧
      (saveFilePressed disk st).2 = disk ∧
      (saveFilePressed disk st).1.original_file = st.original_file ∧
      (saveFilePressed disk st).1.edited_file = st.edited_file) := by
  constructor
  · intro h
    simp [saveFilePressed, h, write_from_triggers]
    intro p hp
    simp [hp]
  · intro h
    simp [saveFilePressed, h]

/-- C1 witness: at `edited_file = [{hi, there}]` the save persists; at
`edited_file = [{hi, ""}]` the modal is raised and the disk is
untouched. -/
theorem saveFilePressed_validates_witness :
    (saveFilePressed emptyDisk
        { AppState.default with selected_file := "/e/match/a.yml",
                                edited_file := ⟨[⟨"hi", "there"⟩]⟩ }).2.matchFiles
        "/e/match/a.yml" = some ⟨[⟨"hi", "there"⟩]⟩ ∧
    (saveFilePressed emptyDisk
        { AppState.default with selected_file := "/e/match/a.yml",
                                edited_file := ⟨[⟨"hi", ""⟩]⟩ }).1.show_modal = true ∧
    (saveFilePressed emptyDisk
        { AppState.default with selected_file := "/e/match/a.yml",
                                edited_file := ⟨[⟨"hi", ""⟩]⟩ }).2 = emptyDisk := by
  refine ⟨?_, ?_, ?_⟩
  · exact ((saveFilePressed_validates emptyDisk _).1 (by decide)).1
  · exact ((saveFilePressed_validates emptyDisk _).2 (by decide)).1
  · exact ((saveFilePressed_validates emptyDisk _).2 (by decide)).2.2.1

/-! ## C2 -/

/-- C2: navigating to a match file whose on-disk document parses loads
exactly the subsequence of pairs with non-empty trigger and replace
(order preserved, empty-field entries dropped), puts it in both
`original_file` and `edited_file`, and does not modify the disk. -/
theorem load_match_file_filters (disk : Disk) (st : AppState) (value : String)
    (doc : EspansoYaml)
    (h1 : value ≠ "eg-Config") (h2 : value ≠ "eg-Settings") (h3 : value ≠ "eg-About")
    (h4 : disk.matchFiles (st.espanso_loc ++ "/match/" ++ value ++ ".yml") = some doc) :
    ∃ st', navigateTo disk st value = some (st', disk) ∧
      st'.original_file.matches = doc.matches.filter keepPair ∧
      st'.edited_file = st'.original_file ∧
      st'.original_file.matches.Sublist doc.matches ∧
      (∀ pair, pair ∈ st'.original_file.matches ↔
        pair ∈ doc.matches ∧ keepPair pair = true) := by
  refine ⟨_, navigateTo_match_file disk st value doc h1 h2 h3 h4, rfl, rfl, ?_, ?_⟩
  · exact List.filter_sublist _
  · intro pair
    simp [List.mem_filter]

/-- C2 witness: loading `/e/match/greet.yml` from `greetDisk` keeps
`{hi, there}` and drops `{"", gone}`. -/
theorem load_match_file_filters_witness :
    ∃ st', navigateTo greetDisk { AppState.default with espanso_loc := "/e" } "greet" =
        some (st', greetDisk) ∧
      st'.original_file.matches = [⟨"hi", "there"⟩] ∧
      st'.edited_file = st'.original_file := by
  obtain ⟨st', hnav, hfilter, hedit, -, -⟩ :=
    load_match_file_filters greetDisk { AppState.default with espanso_loc := "/e" }
      "greet" ⟨[⟨"hi", "there"⟩, ⟨"", "gone"⟩]⟩
      (by decide) (by decide) (by decide) (by decide)
  exact ⟨st', hnav, by rw [hfilter]; decide, hedit⟩

/-! ## C3 -/

/-- C3: writing a sequence of pairs in which every trigger and replace
is non-empty and reading it back from the same path yields exactly the
same sequence. -/
theorem match_file_round_trip (disk : Disk) (path : String) (entries : List YamlPairs)
    (h : ∀ pair ∈ entries, pair.trigger ≠ "" ∧ pair.replace ≠ "") :
    read_to_triggers (write_from_triggers disk path ⟨entries⟩) path = some ⟨entries⟩ := by
  have hfilter : entries.filter keepPair = entries := by
    rw [List.filter_eq_self]
    intro pair hmem
    obtain ⟨ht, hr⟩ := h pair hmem
    have ht' : pair.trigger.isEmpty = false := by
      cases hb : pair.trigger.isEmpty
      · rfl
      · exact absurd ((String.isEmpty_iff _).1 hb) ht
    have hr' : pair.replace.isEmpty = false := by
      cases hb : pair.replace.isEmpty
      · rfl
      · exact absurd ((String.isEmpty_iff _).1 hb) hr
    simp [keepPair, ht', hr']
  simp [read_to_triggers, write_from_triggers, hfilter]

/-- C3 witness: the round trip at `[{hi, there}, {bye, now}]`. -/
theorem match_file_round_trip_witness :
    read_to_triggers
      (write_from_triggers emptyDisk "/e/match/a.yml" ⟨[⟨"hi", "there"⟩, ⟨"bye", "now"⟩]⟩)
      "/e/match/a.yml" = some ⟨[⟨"hi", "there"⟩, ⟨"bye", "now"⟩]⟩ :=
  match_file_round_trip emptyDisk "/e/match/a.yml" _ (by decide)

/-! ## C4 -/

/-- C4: `valid_espanso_dir` returns true exactly when `path/config` is
a directory, `path/match` is a directory and `path/config/default.yml`
is a regular file; adding an unrelated file or directory to the
filesystem never changes the verdict (and the function, being a pure
predicate on the snapshot, has no side effects). -/
theorem valid_espanso_dir_correct (fs : FileSystem) (selected_dir : String) :
    (valid_espanso_dir fs selected_dir = true ↔
      fs.isDir (pathJoin selected_dir "config") = true ∧
      fs.isDir (pathJoin selected_dir "match") = true ∧
      fs.isFile (pathJoin selected_dir "config/default.yml") = true) ∧
    (∀ q, q ≠ pathJoin selected_dir "config/default.yml" →
      valid_espanso_dir (fs.addFile q) selected_dir = valid_espanso_dir fs selected_dir) ∧
    (∀ q, q ≠ pathJoin selected_dir "config" → q ≠ pathJoin selected_dir "match" →
      valid_espanso_dir (fs.addDir q) selected_dir = valid_espanso_dir fs selected_dir) := by
  refine ⟨?_, ?_, ?_⟩
  · simp [valid_espanso_dir, and_assoc]
  · intro q hq
    simp only [valid_espanso_dir, FileSystem.addFile,
      if_neg (show ¬pathJoin selected_dir "config/default.yml" = q from fun h => hq h.symm)]
  · intro q h1 h2
    simp only [valid_espanso_dir, FileSystem.addDir,
      if_neg (show ¬pathJoin selected_dir "config" = q from fun h => h1 h.symm),
      if_neg (show ¬pathJoin selected_dir "match" = q from fun h => h2 h.symm)]

/-- A filesystem with exactly the three entries a valid espanso
directory under `/e` needs. -/
def demoFS : FileSystem :=
  ⟨fun p => p == "/e/config" || p == "/e/match",
   fun p => p == "/e/config/default.yml"⟩

/-- C4 witness: `/e` is valid on `demoFS`; adding the unrelated file
`/e/notes.txt` or the unrelated directory `/e/images` changes
nothing. -/
theorem valid_espanso_dir_correct_witness :
    valid_espanso_dir demoFS "/e" = true ∧
    valid_espanso_dir (demoFS.addFile "/e/notes.txt") "/e" = valid_espanso_dir demoFS "/e" ∧
    valid_espanso_dir (demoFS.addDir "/e/images") "/e" = valid_espanso_dir demoFS "/e" := by
  refine ⟨?_, ?_, ?_⟩
  · exact (valid_espanso_dir_correct demoFS "/e").1.2 ⟨by decide, by decide, by decide⟩
  · exact (valid_espanso_dir_correct demoFS "/e").2.1 "/e/notes.txt" (by decide)
  · exact (valid_espanso_dir_correct demoFS "/e").2.2 "/e/images" (by decide) (by decide)

/-! ## C5 -/

/-- A key occurs among the serialized keys of one optional entry iff
it is that entry's key and the field is set. -/
theorem mem_map_fst_optEntry {α : Type} (k q : String) (enc : α → YamlVal) (o : Option α) :
    k ∈ (optEntry q enc o).map Prod.fst ↔ k = q ∧ o.isSome = true := by
  cases o <;> simp [optEntry]

/-- Loading `/e/config/default.yml` from `enableOnlyDisk` yields a
config whose only set field is `enable := some true`. -/
theorem load_enableOnlyDisk : ParsedConfig.load enableOnlyDisk "/e/config/default.yml"
    = some { ParsedConfig.default with enable := some true } := by decide

/-- The config record after the picker coercions of
`Message::NavigateTo("eg-Config")` on the `enable: true` file. -/
def enableOnlyCoerced : ParsedConfig :=
  { ParsedConfig.default with backend := some "Auto", enable := some true,
                              toggle_key := some "OFF" }

/-- The state from which the C5 scenario starts. -/
def configStart : AppState := { AppState.default with espanso_loc := "/e" }

/-- The state after navigating to the config view in the C5
scenario. -/
def configLoaded : AppState :=
  { configStart with selected_nav := "eg-Config",
                     selected_file := "/e/config/default.yml",
                     original_config := enableOnlyCoerced,
                     edited_config := enableOnlyCoerced }

set_option maxHeartbeats 3000000 in
/-- C5: the config serializer emits exactly the `Some`-valued fields —
for every field, its key occurs in the written document iff the field
is set — and concretely: loading a config containing only
`enable: true` through `Message::NavigateTo("eg-Config")` (which
coerces the unset `backend`/`toggle_key` pickers), changing nothing,
and saving via `Message::SaveConfigPressed` writes a file containing
exactly `backend: Auto`, `enable: true`, `toggle_key: OFF` — never a
default value for an untouched field. -/
theorem config_save_skips_unset :
    (∀ c : ParsedConfig,
      ("label" ∈ (serializeParsedConfig c).map Prod.fst ↔ c.label.isSome = true) ∧
      ("backend" ∈ (serializeParsedConfig c).map Prod.fst ↔ c.backend.isSome = true) ∧
      ("enable" ∈ (serializeParsedConfig c).map Prod.fst ↔ c.enable.isSome = true) ∧
      ("clipboard_threshold" ∈ (serializeParsedConfig c).map Prod.fst ↔ c.clipboard_threshold.isSome = true) ∧
      ("auto_restart" ∈ (serializeParsedConfig c).map Prod.fst ↔ c.auto_restart.isSome = true) ∧
      ("toggle_key" ∈ (serializeParsedConfig c).map Prod.fst ↔ c.toggle_key.isSome = true) ∧
      ("preserve_clipboard" ∈ (serializeParsedConfig c).map Prod.fst ↔ c.preserve_clipboard.isSome = true) ∧
      ("paste_shortcut" ∈ (serializeParsedConfig c).map Prod.fst ↔ c.paste_shortcut.isSome = true) ∧
      ("disable_x11_fast_inject" ∈ (serializeParsedConfig c).map Prod.fst ↔ c.disable_x11_fast_inject.isSome = true) ∧
      ("inject_delay" ∈ (serializeParsedConfig c).map Prod.fst ↔ c.inject_delay.isSome = true) ∧
      ("key_delay" ∈ (serializeParsedConfig c).map Prod.fst ↔ c.key_delay.isSome = true) ∧
      ("evdev_modifier_delay" ∈ (serializeParsedConfig c).map Prod.fst ↔ c.evdev_modifier_delay.isSome = true) ∧
      ("word_separators" ∈ (serializeParsedConfig c).map Prod.fst ↔ c.word_separators.isSome = true) ∧
      ("backspace_limit" ∈ (serializeParsedConfig c).map Prod.fst ↔ c.backspace_limit.isSome = true) ∧
      ("apply_patch" ∈ (serializeParsedConfig c).map Prod.fst ↔ c.apply_patch.isSome = true) ∧
      ("keyboard_layout" ∈ (serializeParsedConfig c).map Prod.fst ↔ c.keyboard_layout.isSome = true) ∧
      ("search_trigger" ∈ (serializeParsedConfig c).map Prod.fst ↔ c.search_trigger.isSome = true) ∧
      ("search_shortcut" ∈ (serializeParsedConfig c).map Prod.fst ↔ c.search_shortcut.isSome = true) ∧
      ("undo_backspace" ∈ (serializeParsedConfig c).map Prod.fst ↔ c.undo_backspace.isSome = true) ∧
      ("show_icon" ∈ (serializeParsedConfig c).map Prod.fst ↔ c.show_icon.isSome = true) ∧
      ("show_notifications" ∈ (serializeParsedConfig c).map Prod.fst ↔ c.show_notifications.isSome = true) ∧
      ("secure_input_notification" ∈ (serializeParsedConfig c).map Prod.fst ↔ c.secure_input_notification.isSome = true) ∧
      ("pre_paste_delay" ∈ (serializeParsedConfig c).map Prod.fst ↔ c.pre_paste_delay.isSome = true) ∧
      ("restore_clipboard_delay" ∈ (serializeParsedConfig c).map Prod.fst ↔ c.restore_clipboard_delay.isSome = true) ∧
      ("paste_shortcut_event_delay" ∈ (serializeParsedConfig c).map Prod.fst ↔ c.paste_shortcut_event_delay.isSome = true) ∧
      ("post_form_delay" ∈ (serializeParsedConfig c).map Prod.fst ↔ c.post_form_delay.isSome = true) ∧
      ("post_search_delay" ∈ (serializeParsedConfig c).map Prod.fst ↔ c.post_search_delay.isSome = true) ∧
      ("emulate_alt_codes" ∈ (serializeParsedConfig c).map Prod.fst ↔ c.emulate_alt_codes.isSome = true) ∧
      ("win32_exclude_orphan_events" ∈ (serializeParsedConfig c).map Prod.fst ↔ c.win32_exclude_orphan_events.isSome = true) ∧
      ("win32_keyboard_layout_cache_interval" ∈ (serializeParsedConfig c).map Prod.fst ↔ c.win32_keyboard_layout_cache_interval.isSome = true) ∧
      ("x11_use_xclip_backend" ∈ (serializeParsedConfig c).map Prod.fst ↔ c.x11_use_xclip_backend.isSome = true) ∧
      ("x11_use_xdotool_backend" ∈ (serializeParsedConfig c).map Prod.fst ↔ c.x11_use_xdotool_backend.isSome = true) ∧
      ("use_standard_includes" ∈ (serializeParsedConfig c).map Prod.fst ↔ c.use_standard_includes.isSome = true) ∧
      ("includes" ∈ (serializeParsedConfig c).map Prod.fst ↔ c.includes.isSome = true) ∧
      ("extra_includes" ∈ (serializeParsedConfig c).map Prod.fst ↔ c.extra_includes.isSome = true) ∧
      ("excludes" ∈ (serializeParsedConfig c).map Prod.fst ↔ c.excludes.isSome = true) ∧
      ("extra_excludes" ∈ (serializeParsedConfig c).map Prod.fst ↔ c.extra_excludes.isSome = true) ∧
      ("filter_class" ∈ (serializeParsedConfig c).map Prod.fst ↔ c.filter_class.isSome = true) ∧
      ("filter_exec" ∈ (serializeParsedConfig c).map Prod.fst ↔ c.filter_exec.isSome = true) ∧
      ("filter_os" ∈ (serializeParsedConfig c).map Prod.fst ↔ c.filter_os.isSome = true) ∧
      ("filter_title" ∈ (serializeParsedConfig c).map Prod.fst ↔ c.filter_title.isSome = true)) ∧
    (navigateTo enableOnlyDisk configStart "eg-Config" = some (configLoaded, enableOnlyDisk) ∧
     configLoaded.edited_config = configLoaded.original_config ∧
     (saveConfigPressed enableOnlyDisk configLoaded).2.configFiles "/e/config/default.yml" =
       some [("backend", YamlVal.str "Auto"), ("enable", YamlVal.boolVal true),
             ("toggle_key", YamlVal.str "OFF")]) := by
  constructor
  · intro c
    refine ⟨?_, ?_, ?_, ?_, ?_, ?_, ?_, ?_, ?_, ?_, ?_, ?_, ?_, ?_, ?_, ?_, ?_, ?_, ?_, ?_, ?_, ?_, ?_, ?_, ?_, ?_, ?_, ?_, ?_, ?_, ?_, ?_, ?_, ?_, ?_, ?_, ?_, ?_, ?_, ?_, ?_⟩ <;>
      simp only [serializeParsedConfig, List.map_append, List.mem_append, mem_map_fst_optEntry,
        String.reduceEq, false_and, and_true, true_and, or_false, false_or, and_false]
  · refine ⟨?_, rfl, rfl⟩
    simp [navigateTo, load_enableOnlyDisk, configStart, configLoaded, enableOnlyCoerced,
      ParsedConfig.default, AppState.default, EspansoYaml.default]

/-! ## C6 -/

/-- `YAMLConfig` with every key absent. -/
def YAMLConfig.empty : YAMLConfig :=
  {
    label := none,
    backend := none,
    enable := none,
    clipboard_threshold := none,
    pre_paste_delay := none,
    toggle_key := none,
    auto_restart := none,
    preserve_clipboard := none,
    restore_clipboard_delay := none,
    paste_shortcut_event_delay := none,
    paste_shortcut := none,
    disable_x11_fast_inject := none,
    inject_delay := none,
    key_delay := none,
    backspace_delay := none,
    evdev_modifier_delay := none,
    word_separators := none,
    backspace_limit := none,
    apply_patch := none,
    keyboard_layout := none,
    search_trigger := none,
    search_shortcut := none,
    undo_backspace := none,
    show_notifications := none,
    show_icon := none,
    post_form_delay := none,
    post_search_delay := none,
    secure_input_notification := none,
    emulate_alt_codes := none,
    win32_exclude_orphan_events := none,
    win32_keyboard_layout_cache_interval := none,
    x11_use_xclip_backend := none,
    x11_use_xdotool_backend := none,
    includes := none,
    excludes := none,
    extra_includes := none,
    extra_excludes := none,
    use_standard_includes := none,
    filter_title := none,
    filter_class := none,
    filter_exec := none,
    filter_os := none }

/-- A raw config with both `key_delay: 7` and the legacy
`backspace_delay: 50`. -/
def demoKeyDelayCfg : YAMLConfig :=
  { YAMLConfig.empty with key_delay := some 7, backspace_delay := some 50 }

/-- A raw config with only the legacy `backspace_delay: 50`. -/
def demoLegacyCfg : YAMLConfig :=
  { YAMLConfig.empty with backspace_delay := some 50 }

/-- C6: converting a raw config resolves `key_delay` as the first
non-absent of (`key_delay`, `backspace_delay`): a present `key_delay`
wins; an absent one falls back to the legacy key; concretely a
document containing only `backspace_delay: 50` parses to an effective
`key_delay` of 50. -/
theorem key_delay_fallback :
    (∀ (y : YAMLConfig) (v : Nat), y.key_delay = some v →
      (ParsedConfig.ofYAMLConfig y).key_delay = some v) ∧
    (∀ y : YAMLConfig, y.key_delay = none →
      (ParsedConfig.ofYAMLConfig y).key_delay = y.backspace_delay) ∧
    ((parseYAMLConfig [("backspace_delay", YamlVal.intVal 50)]).map
      (fun y => (ParsedConfig.ofYAMLConfig y).key_delay) = some (some 50)) := by
  refine ⟨?_, ?_, ?_⟩
  · intro y v h
    simp [ParsedConfig.ofYAMLConfig, h]
  · intro y h
    simp [ParsedConfig.ofYAMLConfig, h]
  · decide

/-- C6 witness: with both keys set `key_delay` wins (7); with only the
legacy key the fallback (50) is used. -/
theorem key_delay_fallback_witness :
    (ParsedConfig.ofYAMLConfig demoKeyDelayCfg).key_delay = some 7 ∧
    (ParsedConfig.ofYAMLConfig demoLegacyCfg).key_delay = some 50 :=
  ⟨key_delay_fallback.1 demoKeyDelayCfg 7 rfl,
   (key_delay_fallback.2.1 demoLegacyCfg rfl).trans rfl⟩

/-! ## C7 -/

/-- The state of a user who typed the invalid new-file name `a/b`. -/
def submitInvalidState : AppState :=
  { AppState.default with espanso_loc := "/e", new_file_name := "a/b" }

/-- C7 counterexample: `a/b` is an invalid stem, yet submitting it as
a new file name writes `/e/match/a/b.yml` to disk —
`Message::SubmitNewFileName` performs no `is_valid_file_name` check,
so creation with an invalid stem is not rejected before the
filesystem call. -/
theorem create_file_skips_validation_cex :
    is_valid_file_name "a/b" = false ∧
    emptyDisk.matchFiles "/e/match/a/b.yml" = none ∧
    (submitNewFileName emptyDisk submitInvalidState).2.matchFiles "/e/match/a/b.yml" =
      some EspansoYaml.default := by
  refine ⟨by decide, rfl, by decide⟩

/-- C7 (amended): a stem is valid iff it is non-empty and made of word
characters, hyphens, periods and spaces (so any name containing `/` is
invalid); renaming with an invalid stem is rejected before any
filesystem call; but creating a new file checks only that the typed
name is non-blank, so any non-blank name — valid or not — reaches the
filesystem. -/
theorem file_name_rule_amended :
    (∀ s : String, is_valid_file_name s = true ↔
      (s ≠ "" ∧ ∀ c ∈ s.data, isFileNameChar c = true)) ∧
    (∀ s : String, '/' ∈ s.data → is_valid_file_name s = false) ∧
    (∀ (disk : Disk) (st : AppState), is_valid_file_name st.file_name_change = false →
      fileNameChangeSubmit disk st = (st, disk)) ∧
    (∀ (disk : Disk) (st : AppState),
      (rustTrim st.new_file_name).isEmpty = false →
      rustEndsWith st.new_file_name ".yml" = false →
      (submitNewFileName disk st).2.matchFiles
        (st.espanso_loc ++ "/match/" ++ st.new_file_name ++ ".yml") = some EspansoYaml.default) := by
  refine ⟨?_, ?_, ?_, ?_⟩
  · intro s
    simp [is_valid_file_name, List.all_eq_true, String.isEmpty_iff, Bool.eq_false_iff]
  · intro s hs
    have hall : s.data.all isFileNameChar = false := by
      rw [List.all_eq_false]
      exact ⟨'/', hs, by decide⟩
    simp [is_valid_file_name, hall]
  · intro disk st h
    simp [fileNameChangeSubmit, h]
  · intro disk st h1 h2
    simp [submitNewFileName, h1, h2, create_new_yml_file]

/-- C7 witness: `My Snippets-1` is accepted, `a/b` is rejected, a
rename to `a/b` changes nothing, and submitting the non-blank new-file
name `a/b` writes the file. -/
theorem file_name_rule_amended_witness :
    is_valid_file_name "My Snippets-1" = true ∧
    is_valid_file_name "a/b" = false ∧
    fileNameChangeSubmit emptyDisk { AppState.default with file_name_change := "a/b" } =
      ({ AppState.default with file_name_change := "a/b" }, emptyDisk) ∧
    (submitNewFileName emptyDisk submitInvalidState).2.matchFiles "/e/match/a/b.yml" =
      some EspansoYaml.default := by
  refine ⟨?_, ?_, ?_, ?_⟩
  · exact (file_name_rule_amended.1 "My Snippets-1").2 ⟨by decide, by decide⟩
  · exact file_name_rule_amended.2.1 "a/b" (by decide)
  · exact file_name_rule_amended.2.2.1 emptyDisk _ (by decide)
  · exact file_name_rule_amended.2.2.2 emptyDisk submitInvalidState (by decide) (by decide)

/-! ## C8 -/

/-- An edited config whose projection under some field differs from
the (clean) current value differs from the original config. -/
theorem config_update_dirties {α : Type} (proj : ParsedConfig → α)
    (st : AppState) (e' : ParsedConfig) (v : α)
    (heq : st.edited_config = st.original_config)
    (hproj : proj e' = v)
    (hne : v ≠ proj st.edited_config) :
    e' ≠ st.original_config := by
  intro hc
  exact hne (hproj.symm.trans ((congrArg proj hc).trans (congrArg proj heq.symm)))

/-- C8: the dirty-checking lifecycle.  Loading a match file or the
config file leaves `edited` equal to `original`; every single field
update that stores a value different from the current one (from a
clean state) makes them differ — both `YamlInputChanged` branches and
each of the 26 config set-field handlers of `src/app.rs` lines
434–500; `ResetPressed` and `UndoConfigPressed` restore equality. -/
theorem dirty_checking_lifecycle :
    (∀ (disk : Disk) (st : AppState) (value : String) (st' : AppState) (disk' : Disk),
      value ≠ "eg-Config" → value ≠ "eg-Settings" → value ≠ "eg-About" →
      navigateTo disk st value = some (st', disk') →
      st'.edited_file = st'.original_file) ∧
    (∀ (disk : Disk) (st : AppState) (cfg : ParsedConfig) (st' : AppState) (disk' : Disk),
      ParsedConfig.load disk (st.espanso_loc ++ "/config/default.yml") = some cfg →
      navigateTo disk st "eg-Config" = some (st', disk') →
      st'.edited_config = st'.original_config) ∧
    (∀ (st : AppState) (new_str : String) (i : Nat) (pair : YamlPairs) (st' : AppState),
      st.edited_file = st.original_file →
      st.edited_file.matches[i]? = some pair →
      new_str ≠ pair.trigger →
      yamlInputChanged st new_str i "trigger" = some st' →
      st'.edited_file ≠ st'.original_file) ∧
    (∀ (st : AppState) (new_str : String) (i : Nat) (pair : YamlPairs) (st' : AppState)
        (tr : String),
      st.edited_file = st.original_file →
      st.edited_file.matches[i]? = some pair →
      new_str ≠ pair.replace →
      tr ≠ "trigger" →
      yamlInputChanged st new_str i tr = some st' →
      st'.edited_file ≠ st'.original_file) ∧
    (∀ (st : AppState) (v : String),
      st.edited_config = st.original_config →
      some v ≠ st.edited_config.backend →
      (backendPicked st v).edited_config ≠ (backendPicked st v).original_config) ∧
    (∀ (st : AppState) (v : Bool),
      st.edited_config = st.original_config →
      some v ≠ st.edited_config.enable →
      (enableToggled st v).edited_config ≠ (enableToggled st v).original_config) ∧
    (∀ (st : AppState) (v : String),
      st.edited_config = st.original_config →
      some v ≠ st.edited_config.toggle_key →
      (toggleKeyPicked st v).edited_config ≠ (toggleKeyPicked st v).original_config) ∧
    (∀ (st : AppState) (v : Nat),
      st.edited_config = st.original_config →
      some v ≠ st.edited_config.inject_delay →
      (injectDelayInput st v).edited_config ≠ (injectDelayInput st v).original_config) ∧
    (∀ (st : AppState) (v : Nat),
      st.edited_config = st.original_config →
      some v ≠ st.edited_config.key_delay →
      (keyDelayInput st v).edited_config ≠ (keyDelayInput st v).original_config) ∧
    (∀ (st : AppState) (v : Nat),
      st.edited_config = st.original_config →
      some v ≠ st.edited_config.clipboard_threshold →
      (clipboardThresholdInput st v).edited_config ≠ (clipboardThresholdInput st v).original_config) ∧
    (∀ (st : AppState) (v : String),
      st.edited_config = st.original_config →
      some v ≠ st.edited_config.paste_shortcut →
      (pasteShortcutInput st v).edited_config ≠ (pasteShortcutInput st v).original_config) ∧
    (∀ (st : AppState) (v : String),
      st.edited_config = st.original_config →
      some v ≠ st.edited_config.search_shortcut →
      (searchShortcutInput st v).edited_config ≠ (searchShortcutInput st v).original_config) ∧
    (∀ (st : AppState) (v : String),
      st.edited_config = st.original_config →
      some v ≠ st.edited_config.search_trigger →
      (searchTriggerInput st v).edited_config ≠ (searchTriggerInput st v).original_config) ∧
    (∀ (st : AppState) (v : Nat),
      st.edited_config = st.original_config →
      some v ≠ st.edited_config.pre_paste_delay →
      (prePasteDelayInput st v).edited_config ≠ (prePasteDelayInput st v).original_config) ∧
    (∀ (st : AppState) (v : Bool),
      st.edited_config = st.original_config →
      some v ≠ st.edited_config.disable_x11_fast_inject →
      (x11FastInjectToggled st v).edited_config ≠ (x11FastInjectToggled st v).original_config) ∧
    (∀ (st : AppState) (v : Nat),
      st.edited_config = st.original_config →
      some v ≠ st.edited_config.paste_shortcut_event_delay →
      (pasteShortcutEventDelayInput st v).edited_config ≠ (pasteShortcutEventDelayInput st v).original_config) ∧
    (∀ (st : AppState) (v : Bool),
      st.edited_config = st.original_config →
      some v ≠ st.edited_config.auto_restart →
      (autoRestartToggled st v).edited_config ≠ (autoRestartToggled st v).original_config) ∧
    (∀ (st : AppState) (v : Bool),
      st.edited_config = st.original_config →
      some v ≠ st.edited_config.preserve_clipboard →
      (preserveClipboardToggled st v).edited_config ≠ (preserveClipboardToggled st v).original_config) ∧
    (∀ (st : AppState) (v : Nat),
      st.edited_config = st.original_config →
      some v ≠ st.edited_config.restore_clipboard_delay →
      (restoreClipboardDelayInput st v).edited_config ≠ (restoreClipboardDelayInput st v).original_config) ∧
    (∀ (st : AppState) (v : Nat),
      st.edited_config = st.original_config →
      some v ≠ st.edited_config.evdev_modifier_delay →
      (evdevModifierDelayInput st v).edited_config ≠ (evdevModifierDelayInput st v).original_config) ∧
    (∀ (st : AppState) (value : String) (l : List String) (st' : AppState),
      jsonParseStringArray value = some l →
      some l ≠ st.edited_config.word_separators →
      st.edited_config = st.original_config →
      wordSeparatorsInput st value = some st' →
      st'.edited_config ≠ st'.original_config) ∧
    (∀ (st : AppState) (v : Nat),
      st.edited_config = st.original_config →
      some v ≠ st.edited_config.backspace_limit →
      (backspaceLimitInput st v).edited_config ≠ (backspaceLimitInput st v).original_config) ∧
    (∀ (st : AppState) (v : Bool),
      st.edited_config = st.original_config →
      some v ≠ st.edited_config.apply_patch →
      (applyPatchToggled st v).edited_config ≠ (applyPatchToggled st v).original_config) ∧
    (∀ (st : AppState) (value decoded : String) (st' : AppState),
      parseJsonStringBody [] (value.data ++ ['"']) = some (decoded, []) →
      some [("layout", decoded)] ≠ st.edited_config.keyboard_layout →
      st.edited_config = st.original_config →
      keyboardLayoutInput st value = some st' →
      st'.edited_config ≠ st'.original_config) ∧
    (∀ (st : AppState) (v : Bool),
      st.edited_config = st.original_config →
      some v ≠ st.edited_config.undo_backspace →
      (undoBackspaceToggled st v).edited_config ≠ (undoBackspaceToggled st v).original_config) ∧
    (∀ (st : AppState) (v : Bool),
      st.edited_config = st.original_config →
      some v ≠ st.edited_config.show_notifications →
      (showNotificationsToggled st v).edited_config ≠ (showNotificationsToggled st v).original_config) ∧
    (∀ (st : AppState) (v : Bool),
      st.edited_config = st.original_config →
      some v ≠ st.edited_config.show_icon →
      (showIconToggled st v).edited_config ≠ (showIconToggled st v).original_config) ∧
    (∀ (st : AppState) (v : Bool),
      st.edited_config = st.original_config →
      some v ≠ st.edited_config.x11_use_xclip_backend →
      (useXclipBackendToggled st v).edited_config ≠ (useXclipBackendToggled st v).original_config) ∧
    (∀ (st : AppState) (v : Bool),
      st.edited_config = st.original_config →
      some v ≠ st.edited_config.win32_exclude_orphan_events →
      (excludeOrphanEventsToggled st v).edited_config ≠ (excludeOrphanEventsToggled st v).original_config) ∧
    (∀ (st : AppState) (v : Int),
      st.edited_config = st.original_config →
      some v ≠ st.edited_config.win32_keyboard_layout_cache_interval →
      (keyboardLayoutCacheIntervalInput st v).edited_config ≠ (keyboardLayoutCacheIntervalInput st v).original_config) ∧
    (∀ st : AppState, (resetPressed st).edited_file = (resetPressed st).original_file) ∧
    (∀ st : AppState,
      (undoConfigPressed st).edited_config = (undoConfigPressed st).original_config) := by
  refine ⟨?_, ?_, ?_, ?_, ?_, ?_, ?_, ?_, ?_, ?_, ?_, ?_, ?_, ?_, ?_, ?_, ?_, ?_, ?_, ?_, ?_, ?_, ?_, ?_, ?_, ?_, ?_, ?_, ?_, ?_, ?_, ?_⟩
  · intro disk st value st' disk' h1 h2 h3 hnav
    simp only [navigateTo, h1, h2, h3, if_false, ite_false] at hnav
    cases hread : read_to_triggers disk (st.espanso_loc ++ "/match/" ++ value ++ ".yml") with
    | none => rw [hread] at hnav; cases hnav
    | some yaml =>
      rw [hread] at hnav
      simp only [Option.some.injEq, Prod.mk.injEq] at hnav
      obtain ⟨hst, -⟩ := hnav
      rw [← hst]
  · intro disk st cfg st' disk' hload hnav
    simp only [navigateTo, if_pos] at hnav
    rw [hload] at hnav
    simp only [Option.some.injEq, Prod.mk.injEq] at hnav
    obtain ⟨hst, -⟩ := hnav
    rw [← hst]
  · intro st new_str i pair st' heq hget hne hupd
    have hlt : i < st.edited_file.matches.length :=
      (List.getElem?_eq_some_iff.1 hget).1
    simp only [yamlInputChanged, if_pos] at hupd
    rw [hget] at hupd
    simp only [Option.some.injEq] at hupd
    rw [← hupd, ← heq]
    intro hcontra
    have hmatches :
        st.edited_file.matches.set i { pair with trigger := new_str } =
          st.edited_file.matches := congrArg EspansoYaml.matches hcontra
    have := congrArg (fun l => l[i]?) hmatches
    simp only [List.getElem?_set_self hlt, hget, Option.some.injEq] at this
    exact hne (congrArg YamlPairs.trigger this)
  · intro st new_str i pair st' tr heq hget hne htr hupd
    have hlt : i < st.edited_file.matches.length :=
      (List.getElem?_eq_some_iff.1 hget).1
    simp only [yamlInputChanged, htr, if_false, ite_false] at hupd
    rw [hget] at hupd
    simp only [Option.some.injEq] at hupd
    rw [← hupd, ← heq]
    intro hcontra
    have hmatches :
        st.edited_file.matches.set i { pair with replace := new_str } =
          st.edited_file.matches := congrArg EspansoYaml.matches hcontra
    have := congrArg (fun l => l[i]?) hmatches
    simp only [List.getElem?_set_self hlt, hget, Option.some.injEq] at this
    exact hne (congrArg YamlPairs.replace this)
  · intro st v heq hne
    exact config_update_dirties ParsedConfig.backend st _ (some v) heq rfl hne
  · intro st v heq hne
    exact config_update_dirties ParsedConfig.enable st _ (some v) heq rfl hne
  · intro st v heq hne
    exact config_update_dirties ParsedConfig.toggle_key st _ (some v) heq rfl hne
  · intro st v heq hne
    exact config_update_dirties ParsedConfig.inject_delay st _ (some v) heq rfl hne
  · intro st v heq hne
    exact config_update_dirties ParsedConfig.key_delay st _ (some v) heq rfl hne
  · intro st v heq hne
    exact config_update_dirties ParsedConfig.clipboard_threshold st _ (some v) heq rfl hne
  · intro st v heq hne
    exact config_update_dirties ParsedConfig.paste_shortcut st _ (some v) heq rfl hne
  · intro st v heq hne
    exact config_update_dirties ParsedConfig.search_shortcut st _ (some v) heq rfl hne
  · intro st v heq hne
    exact config_update_dirties ParsedConfig.search_trigger st _ (some v) heq rfl hne
  · intro st v heq hne
    exact config_update_dirties ParsedConfig.pre_paste_delay st _ (some v) heq rfl hne
  · intro st v heq hne
    exact config_update_dirties ParsedConfig.disable_x11_fast_inject st _ (some v) heq rfl hne
  · intro st v heq hne
    exact config_update_dirties ParsedConfig.paste_shortcut_event_delay st _ (some v) heq rfl hne
  · intro st v heq hne
    exact config_update_dirties ParsedConfig.auto_restart st _ (some v) heq rfl hne
  · intro st v heq hne
    exact config_update_dirties ParsedConfig.preserve_clipboard st _ (some v) heq rfl hne
  · intro st v heq hne
    exact config_update_dirties ParsedConfig.restore_clipboard_delay st _ (some v) heq rfl hne
  · intro st v heq hne
    exact config_update_dirties ParsedConfig.evdev_modifier_delay st _ (some v) heq rfl hne
  · intro st value l st' hparse hne heq hupd
    simp only [wordSeparatorsInput, hparse, Option.some.injEq] at hupd
    rw [← hupd]
    exact config_update_dirties ParsedConfig.word_separators st _ (some l) heq rfl hne
  · intro st v heq hne
    exact config_update_dirties ParsedConfig.backspace_limit st _ (some v) heq rfl hne
  · intro st v heq hne
    exact config_update_dirties ParsedConfig.apply_patch st _ (some v) heq rfl hne
  · intro st value decoded st' hparse hne heq hupd
    simp only [keyboardLayoutInput, hparse, Option.some.injEq] at hupd
    rw [← hupd]
    exact config_update_dirties ParsedConfig.keyboard_layout st _
      (some [("layout", decoded)]) heq rfl hne
  · intro st v heq hne
    exact config_update_dirties ParsedConfig.undo_backspace st _ (some v) heq rfl hne
  · intro st v heq hne
    exact config_update_dirties ParsedConfig.show_notifications st _ (some v) heq rfl hne
  · intro st v heq hne
    exact config_update_dirties ParsedConfig.show_icon st _ (some v) heq rfl hne
  · intro st v heq hne
    exact config_update_dirties ParsedConfig.x11_use_xclip_backend st _ (some v) heq rfl hne
  · intro st v heq hne
    exact config_update_dirties ParsedConfig.win32_exclude_orphan_events st _ (some v) heq rfl hne
  · intro st v heq hne
    exact config_update_dirties ParsedConfig.win32_keyboard_layout_cache_interval st _ (some v) heq rfl hne
  · intro st; rfl
  · intro st; rfl

/-- C8 witness: a clean session after loading `greet` from `greetDisk`
and after loading the `enable: true` config from `enableOnlyDisk`;
changing the first trigger to `"hey"`, toggling Enable off and picking
the `Inject` backend each dirty a clean session; Reset and Undo leave
clean sessions. -/
theorem dirty_checking_lifecycle_witness :
    (∀ st' disk',
      navigateTo greetDisk { AppState.default with espanso_loc := "/e" } "greet" =
        some (st', disk') → st'.edited_file = st'.original_file) ∧
    (∀ st' disk',
      navigateTo enableOnlyDisk configStart "eg-Config" = some (st', disk') →
      st'.edited_config = st'.original_config) ∧
    (∀ st',
      yamlInputChanged
        { AppState.default with original_file := ⟨[⟨"hi", "there"⟩]⟩,
                                edited_file := ⟨[⟨"hi", "there"⟩]⟩ } "hey" 0 "trigger" =
        some st' → st'.edited_file ≠ st'.original_file) ∧
    (enableToggled AppState.default false).edited_config ≠
      (enableToggled AppState.default false).original_config ∧
    (backendPicked AppState.default "Inject").edited_config ≠
      (backendPicked AppState.default "Inject").original_config ∧
    (resetPressed AppState.default).edited_file =
      (resetPressed AppState.default).original_file ∧
    (undoConfigPressed AppState.default).edited_config =
      (undoConfigPressed AppState.default).original_config := by
  obtain ⟨h1, h2, h3, -, hbp, hen, -, -, -, -, -, -, -, -, -, -, -, -, -, -, -, -, -, -, -, -,
    -, -, -, -, hreset, hundo⟩ := dirty_checking_lifecycle
  refine ⟨?_, ?_, ?_, ?_, ?_, ?_, ?_⟩
  · intro st' disk' hnav
    exact h1 greetDisk _ "greet" st' disk' (by decide) (by decide) (by decide) hnav
  · intro st' disk' hnav
    exact h2 enableOnlyDisk configStart { ParsedConfig.default with enable := some true }
      st' disk' load_enableOnlyDisk hnav
  · intro st' hupd
    exact h3 { AppState.default with original_file := ⟨[⟨"hi", "there"⟩]⟩,
                                     edited_file := ⟨[⟨"hi", "there"⟩]⟩ }
      "hey" 0 ⟨"hi", "there"⟩ st' rfl (by decide) (by decide) hupd
  · exact hen AppState.default false rfl (by decide)
  · exact hbp AppState.default "Inject" rfl (by decide)
  · exact hreset AppState.default
  · exact hundo AppState.default

/-! ## C9 -/

/-- C9 counterexample: with an empty edited sequence, updating index 0
hits the `get_mut(i).unwrap()` panic path (`none`, a process abort) —
there is no reported `IndexError` result for an out-of-range index, so
the out-of-range behavior is not a reported failure. -/
theorem update_field_out_of_range_cex :
    yamlInputChanged AppState.default "x" 0 "trigger" = none := rfl

/-- C9 (amended): `Message::YamlInputChanged` sets the trigger (when
the field selector is `"trigger"`) or the replace field of the edited
entry at an in-range index; for every out-of-range index it panics on
the `unwrap` (modelled `none`), aborting the process rather than
reporting an `IndexError`. -/
theorem update_field_amended (st : AppState) (new_str : String) (i : Nat) :
    (∀ pair, st.edited_file.matches[i]? = some pair →
      yamlInputChanged st new_str i "trigger" =
        some { st with edited_file :=
          ⟨st.edited_file.matches.set i { pair with trigger := new_str }⟩ } ∧
      ∀ tr, tr ≠ "trigger" →
        yamlInputChanged st new_str i tr =
          some { st with edited_file :=
            ⟨st.edited_file.matches.set i { pair with replace := new_str }⟩ }) ∧
    (st.edited_file.matches[i]? = none →
      ∀ tr, yamlInputChanged st new_str i tr = none) := by
  constructor
  · intro pair hget
    constructor
    · simp only [yamlInputChanged, if_pos]
      rw [hget]
    · intro tr htr
      simp only [yamlInputChanged, htr, if_false, ite_false]
      rw [hget]
  · intro hnone tr
    by_cases htr : tr = "trigger"
    · subst htr
      simp only [yamlInputChanged, if_pos]
      rw [hnone]
    · simp only [yamlInputChanged, htr, if_false, ite_false]
      rw [hnone]

/-- C9 witness: an in-range trigger update at index 0 succeeds; index
5 of an empty sequence hits the panic path. -/
theorem update_field_amended_witness :
    yamlInputChanged { AppState.default with edited_file := ⟨[⟨"a", "b"⟩]⟩ } "x" 0 "trigger" =
      some { AppState.default with edited_file := ⟨[⟨"x", "b"⟩]⟩ } ∧
    yamlInputChanged AppState.default "x" 5 "replace" = none := by
  constructor
  · exact (((update_field_amended
      { AppState.default with edited_file := ⟨[⟨"a", "b"⟩]⟩ } "x" 0).1
      ⟨"a", "b"⟩ (by decide)).1).trans (by decide)
  · exact (update_field_amended AppState.default "x" 5).2 (by decide) "replace"

/-! ## C10 -/

/-- C10: the word-separators handler is not total: on a well-formed
JSON array of strings it stores the parsed list, but on an input that
does not parse (here `"["`) the `serde_json::from_str(..).unwrap()`
panics and aborts the process (modelled `none`) — no error is
reported. -/
theorem word_separators_input_panics :
    (∃ st', wordSeparatorsInput AppState.default "[\" \"]" = some st' ∧
      st'.edited_config.word_separators = some [" "]) ∧
    wordSeparatorsInput AppState.default "[" = none := by
  exact ⟨⟨_, rfl, rfl⟩, rfl⟩

end Theorems

end EspansoGui
